import Mathlib

/-!
Verification development for the cryptorand library (src/cryptorand.h).

The C code is shallowly embedded as follows.

* C pointers and OS handles are modelled as `Option Nat`: `none` is `NULL`,
  `some h` is a non-null pointer/handle value `h`.
* The destination byte buffer of `cryptorand_generate` is a `List Nat`
  (one entry per byte of the caller's allocation).  `memset(p, 0, n)` and the
  OS writes into the first `n` bytes are modelled positionally, leaving bytes
  at offsets `>= n` unchanged.
* The operating-system services (LoadLibraryW, GetProcAddress,
  BCryptOpenAlgorithmProvider, BCryptGenRandom, CryptAcquireContextW,
  CryptGenRandom, fopen, fread) are opaque external collaborators.  They are
  modelled by an environment record of oracle functions.  Every embedded
  function additionally returns the list of external calls it performed
  (`Event`s), so that statements such as "no backend call is made" or
  "the loaded module is never released" are expressible.
* Calling a NULL function pointer, which is undefined behaviour in C, is
  modelled by an `Option` result: `none` means the run faults.
-/

/-- The `cryptorand_result` enumeration (src/cryptorand.h lines 54–62). -/
inductive cryptorand_result where
  | CRYPTORAND_SUCCESS
  | CRYPTORAND_ERROR
  | CRYPTORAND_INVALID_ARGS
  | CRYPTORAND_INVALID_OPERATION
  | CRYPTORAND_TOO_BIG
  | CRYPTORAND_NOT_IMPLEMENTED
deriving DecidableEq, Repr

open cryptorand_result

/-- The numeric value each result code has in the C enum. -/
def cryptorand_result.toInt : cryptorand_result → Int
  | CRYPTORAND_SUCCESS => 0
  | CRYPTORAND_ERROR => -1
  | CRYPTORAND_INVALID_ARGS => -2
  | CRYPTORAND_INVALID_OPERATION => -3
  | CRYPTORAND_TOO_BIG => -11
  | CRYPTORAND_NOT_IMPLEMENTED => -29

/-- A C pointer / OS handle: `none` is `NULL`. -/
abbrev Ptr := Option Nat

/-- A caller-supplied byte buffer, one list entry per byte. -/
abbrev Buffer := List Nat

/-- Overwrite the first `n` bytes of `buf` with `f 0, f 1, …`, leaving bytes at
offsets `>= n` (and the buffer length) unchanged.  This is the common shape of
`memset` and of the OS writing `n` bytes into the start of the buffer. -/
def overwriteFirst (buf : Buffer) (n : Nat) (f : Nat → Nat) : Buffer :=
  (List.range buf.length).map fun i => if i < n then f i else buf.getD i 0

/-- `CRYPTORAND_ZERO_MEMORY(p, n)`: `memset(p, 0, n)` (line 103). -/
def zeroMemory (buf : Buffer) (n : Nat) : Buffer :=
  overwriteFirst buf n fun _ => 0

/-- The OS facility writing `n` fresh bytes into the start of the buffer;
byte `i` receives `f i` truncated to a byte value. -/
def writeBytes (buf : Buffer) (n : Nat) (f : Nat → Nat) : Buffer :=
  overwriteFirst buf n fun i => f i % 256

/-- The `win32` member of the `cryptorand` struct (lines 68–82).  Every field
is a pointer-like value, `NULL`-initialised by `CRYPTORAND_ZERO_OBJECT`. -/
structure cryptorand_win32 where
  hBcryptDLL : Ptr
  BCryptOpenAlgorithmProvider : Ptr
  BCryptCloseAlgorithmProvider : Ptr
  BCryptGenRandom : Ptr
  hAlgorithm : Ptr
  hAdvapiDLL : Ptr
  CryptAcquireContextW : Ptr
  CryptReleaseContext : Ptr
  CryptGenRandom : Ptr
  hProvider : Ptr
deriving DecidableEq, Repr

/-- The `urandom` member of the `cryptorand` struct (lines 84–89). -/
structure cryptorand_urandom where
  pFile : Ptr
deriving DecidableEq, Repr

/-- The `cryptorand` struct (lines 66–90).  In C each platform build contains
only its own member; the model carries both, and the platform-dispatched code
below only ever touches the member belonging to the selected platform. -/
structure cryptorand where
  win32 : cryptorand_win32
  urandom : cryptorand_urandom
deriving DecidableEq, Repr

/-- The all-`NULL` `win32` member produced by `CRYPTORAND_ZERO_OBJECT`. -/
def win32Zero : cryptorand_win32 :=
  ⟨none, none, none, none, none, none, none, none, none, none⟩

/-- The all-zero `cryptorand` object produced by `CRYPTORAND_ZERO_OBJECT`. -/
def cryptorandZero : cryptorand :=
  ⟨win32Zero, ⟨none⟩⟩

/-- Every external call the embedded code can make, recorded in order. -/
inductive Event where
  | loadLibrary (name : String) (result : Ptr)
  | freeLibrary (h : Nat)
  | getProcAddress (h : Nat) (name : String) (result : Ptr)
  | bcryptOpenAlgorithmProvider (ok : Bool)
  | bcryptCloseAlgorithmProvider (h : Nat)
  | bcryptGenRandom (cb : Nat) (ok : Bool)
  | cryptAcquireContext (ok : Bool)
  | cryptReleaseContext (h : Nat)
  | cryptGenRandom (len : Nat) (ok : Bool)
  | fopenEv (ok : Bool)
  | fcloseEv
  | freadEv (requested : Nat) (got : Nat)
deriving DecidableEq, Repr

/-- Whether an event is a `FreeLibrary` call. -/
def Event.isFreeLibrary : Event → Bool
  | .freeLibrary _ => true
  | _ => false

/-- Oracle model of the Win32 services the code calls.

* `LoadLibraryW name`: `none` if the load fails, else the module handle.
* `GetProcAddress h name`: `none` if the symbol is missing, else its address.
* `BCryptOpenAlgorithmProviderImpl`: `none` if the call returns a nonzero
  status, else the algorithm handle it stores through `phAlgorithm`.
* `BCryptGenRandomImpl cb`: `none` if the call returns a nonzero status, else
  the `cb` random bytes it writes (byte `i` of the buffer becomes `f i`).
* `CryptAcquireContextWImpl`: `none` if the call returns `FALSE`, else the
  provider handle it stores through `phProv`.
* `CryptGenRandomImpl len`: as for `BCryptGenRandomImpl`. -/
structure Win32Env where
  LoadLibraryW : String → Ptr
  GetProcAddress : Nat → String → Ptr
  BCryptOpenAlgorithmProviderImpl : Option Nat
  BCryptGenRandomImpl : Nat → Option (Nat → Nat)
  CryptAcquireContextWImpl : Option Nat
  CryptGenRandomImpl : Nat → Option (Nat → Nat)

/-- Oracle model of the Linux services the code calls.

* `fopenImpl`: `none` if opening `/dev/urandom` fails, else the `FILE*`.
* `freadImpl n`: the number of bytes `fread` actually reads when asked for
  `n`, and the bytes it writes into the buffer. -/
structure UrandomEnv where
  fopenImpl : Option Nat
  freadImpl : Nat → Nat × (Nat → Nat)

/-- The full external environment. -/
structure Env where
  win32 : Win32Env
  urandom : UrandomEnv

def sBcryptDll : String := "bcrypt.dll"
def sAdvapiDll : String := "advapi32.dll"
def sBCryptOpen : String := "BCryptOpenAlgorithmProvider"
def sBCryptClose : String := "BCryptCloseAlgorithmProvider"
def sBCryptGen : String := "BCryptGenRandom"
def sCryptAcquire : String := "CryptAcquireContextW"
def sCryptRelease : String := "CryptReleaseContext"
def sCryptGen : String := "CryptGenRandom"

/-- Lines 156–185 of `cryptorand_init__win32`: the `advapi32`/`CryptGenRandom`
fallback block, entered after the BCrypt attempt has failed.  `tr` is the
trace accumulated so far.  It first re-zeroes the `win32` member ("for
safety"), then loads `advapi32.dll`, resolves the three entry points, and
acquires a context; any failure zeroes the member again and reports
`CRYPTORAND_ERROR`. -/
def cryptorand_init__win32_fallback (env : Win32Env) (rng : cryptorand) (tr : List Event) :
    cryptorand_result × cryptorand × List Event :=
  match env.LoadLibraryW sAdvapiDll with
  | none =>
      (CRYPTORAND_ERROR, { rng with win32 := win32Zero },
        tr ++ [Event.loadLibrary sAdvapiDll none])
  | some hA =>
      let pAcq := env.GetProcAddress hA sCryptAcquire
      let pRel := env.GetProcAddress hA sCryptRelease
      let pGen := env.GetProcAddress hA sCryptGen
      let tr := tr ++ [Event.loadLibrary sAdvapiDll (some hA),
                       Event.getProcAddress hA sCryptAcquire pAcq,
                       Event.getProcAddress hA sCryptRelease pRel,
                       Event.getProcAddress hA sCryptGen pGen]
      if pAcq.isSome && pRel.isSome && pGen.isSome then
        match env.CryptAcquireContextWImpl with
        | some hProv =>
            (CRYPTORAND_SUCCESS,
              { rng with win32 :=
                  { win32Zero with
                      hAdvapiDLL := some hA
                      CryptAcquireContextW := pAcq
                      CryptReleaseContext := pRel
                      CryptGenRandom := pGen
                      hProvider := some hProv } },
              tr ++ [Event.cryptAcquireContext true])
        | none =>
            (CRYPTORAND_ERROR, { rng with win32 := win32Zero },
              tr ++ [Event.cryptAcquireContext false])
      else
        (CRYPTORAND_ERROR, { rng with win32 := win32Zero }, tr)

/-- `cryptorand_init__win32` (lines 124–186).  Zeroes the `win32` member, then
tries `bcrypt.dll` with `BCryptOpenAlgorithmProvider`; on any failure of that
attempt it falls through to the `advapi32` block above.  Note: the fall-through
paths do not call `FreeLibrary` on a successfully loaded `bcrypt.dll`. -/
def cryptorand_init__win32 (env : Win32Env) (rng : cryptorand) :
    cryptorand_result × cryptorand × List Event :=
  let rng := { rng with win32 := win32Zero }
  match env.LoadLibraryW sBcryptDll with
  | none =>
      cryptorand_init__win32_fallback env rng [Event.loadLibrary sBcryptDll none]
  | some hB =>
      let pOpen := env.GetProcAddress hB sBCryptOpen
      let pClose := env.GetProcAddress hB sBCryptClose
      let pGen := env.GetProcAddress hB sBCryptGen
      let tr := [Event.loadLibrary sBcryptDll (some hB),
                 Event.getProcAddress hB sBCryptOpen pOpen,
                 Event.getProcAddress hB sBCryptClose pClose,
                 Event.getProcAddress hB sBCryptGen pGen]
      if pOpen.isSome && pClose.isSome && pGen.isSome then
        match env.BCryptOpenAlgorithmProviderImpl with
        | some hAlg =>
            (CRYPTORAND_SUCCESS,
              { rng with win32 :=
                  { win32Zero with
                      hBcryptDLL := some hB
                      BCryptOpenAlgorithmProvider := pOpen
                      BCryptCloseAlgorithmProvider := pClose
                      BCryptGenRandom := pGen
                      hAlgorithm := some hAlg } },
              tr ++ [Event.bcryptOpenAlgorithmProvider true])
        | none =>
            cryptorand_init__win32_fallback env rng
              (tr ++ [Event.bcryptOpenAlgorithmProvider false])
      else
        cryptorand_init__win32_fallback env rng tr

/-- `cryptorand_uninit__win32` (lines 188–202).  Closes the active context
(BCrypt branch first, else the legacy branch), then frees whichever DLLs are
recorded.  Returns `none` when the C code would call a `NULL` function
pointer (undefined behaviour); otherwise the list of teardown calls made.
The struct itself is not modified here (the dispatcher zeroes it). -/
def cryptorand_uninit__win32 (rng : cryptorand) : Option (List Event) :=
  let close? : Option (List Event) :=
    match rng.win32.hAlgorithm with
    | some hAlg =>
        match rng.win32.BCryptCloseAlgorithmProvider with
        | some _ => some [Event.bcryptCloseAlgorithmProvider hAlg]
        | none => none
    | none =>
        match rng.win32.hProvider with
        | some hProv =>
            match rng.win32.CryptReleaseContext with
            | some _ => some [Event.cryptReleaseContext hProv]
            | none => none
        | none => some []
  match close? with
  | none => none
  | some tr =>
      let tr := tr ++ (match rng.win32.hBcryptDLL with
                       | some h => [Event.freeLibrary h]
                       | none => [])
      let tr := tr ++ (match rng.win32.hAdvapiDLL with
                       | some h => [Event.freeLibrary h]
                       | none => [])
      some tr

/-- `cryptorand_generate__win32` (lines 204–222).  Rejects requests above the
32-bit `ULONG`/`DWORD` length field, then dispatches on which handle is set;
with both handles `NULL` it falls through and returns `CRYPTORAND_SUCCESS`
without calling any backend.  Returns `none` when the C code would call a
`NULL` function pointer. -/
def cryptorand_generate__win32 (env : Win32Env) (rng : cryptorand) (buf : Buffer)
    (byteCount : Nat) : Option (cryptorand_result × Buffer × List Event) :=
  if byteCount > 4294967295 then
    some (CRYPTORAND_TOO_BIG, buf, [])
  else
    match rng.win32.hAlgorithm with
    | some _ =>
        match rng.win32.BCryptGenRandom with
        | none => none
        | some _ =>
            let cb := byteCount % 4294967296
            match env.BCryptGenRandomImpl cb with
            | some f =>
                some (CRYPTORAND_SUCCESS, writeBytes buf cb f, [Event.bcryptGenRandom cb true])
            | none =>
                some (CRYPTORAND_ERROR, buf, [Event.bcryptGenRandom cb false])
    | none =>
        match rng.win32.hProvider with
        | some _ =>
            match rng.win32.CryptGenRandom with
            | none => none
            | some _ =>
                let len := byteCount % 4294967296
                match env.CryptGenRandomImpl len with
                | some f =>
                    some (CRYPTORAND_SUCCESS, writeBytes buf len f, [Event.cryptGenRandom len true])
                | none =>
                    some (CRYPTORAND_ERROR, buf, [Event.cryptGenRandom len false])
        | none => some (CRYPTORAND_SUCCESS, buf, [])

/-- `cryptorand_init__urandom` (lines 228–236): open `/dev/urandom` and store
the `FILE*` (which is `NULL` exactly when the open failed). -/
def cryptorand_init__urandom (env : UrandomEnv) (rng : cryptorand) :
    cryptorand_result × cryptorand × List Event :=
  match env.fopenImpl with
  | none => (CRYPTORAND_ERROR, { rng with urandom := ⟨none⟩ }, [Event.fopenEv false])
  | some h => (CRYPTORAND_SUCCESS, { rng with urandom := ⟨some h⟩ }, [Event.fopenEv true])

/-- `cryptorand_uninit__urandom` (lines 238–245): close the file if open. -/
def cryptorand_uninit__urandom (rng : cryptorand) : List Event :=
  match rng.urandom.pFile with
  | none => []
  | some _ => [Event.fcloseEv]

/-- `cryptorand_generate__urandom` (lines 247–261).  Fails with
`CRYPTORAND_INVALID_OPERATION` when the file was never opened; otherwise
`fread`s, writing `bytesRead` bytes into the buffer, and treats a short read
as `CRYPTORAND_ERROR`. -/
def cryptorand_generate__urandom (env : UrandomEnv) (rng : cryptorand) (buf : Buffer)
    (byteCount : Nat) : cryptorand_result × Buffer × List Event :=
  match rng.urandom.pFile with
  | none => (CRYPTORAND_INVALID_OPERATION, buf, [])
  | some _ =>
      let bytesRead := (env.freadImpl byteCount).1
      let buf := writeBytes buf bytesRead (env.freadImpl byteCount).2
      if bytesRead < byteCount then
        (CRYPTORAND_ERROR, buf, [Event.freadEv byteCount bytesRead])
      else
        (CRYPTORAND_SUCCESS, buf, [Event.freadEv byteCount bytesRead])

/-- The compile-time platform selection (`CRYPTORAND_WIN32` /
`CRYPTORAND_URANDOM` / neither, lines 43–50 and the `#if` dispatch). -/
inductive Platform where
  | win32
  | urandom
  | other
deriving DecidableEq, Repr

/-- `cryptorand_init` (lines 265–288).  Null-checks the destination, zeroes
it, dispatches to the platform backend, and re-zeroes the object on any
failure so the caller is handed a blank object. -/
def cryptorand_init (plat : Platform) (env : Env) (pRNG : Option cryptorand) :
    cryptorand_result × Option cryptorand × List Event :=
  match pRNG with
  | none => (CRYPTORAND_INVALID_ARGS, none, [])
  | some _ =>
      let rng0 := cryptorandZero
      let out :=
        match plat with
        | .win32 => cryptorand_init__win32 env.win32 rng0
        | .urandom => cryptorand_init__urandom env.urandom rng0
        | .other => (CRYPTORAND_NOT_IMPLEMENTED, rng0, [])
      if out.1 ≠ CRYPTORAND_SUCCESS then (out.1, some cryptorandZero, out.2.2)
      else (out.1, some out.2.1, out.2.2)

/-- `cryptorand_uninit` (lines 290–305).  A `NULL` source is a no-op;
otherwise the platform teardown runs and the object is zeroed.  `none` means
the teardown faulted (only possible by calling a `NULL` function pointer). -/
def cryptorand_uninit (plat : Platform) (pRNG : Option cryptorand) :
    Option (Option cryptorand × List Event) :=
  match pRNG with
  | none => some (none, [])
  | some rng =>
      let tr? :=
        match plat with
        | .win32 => cryptorand_uninit__win32 rng
        | .urandom => some (cryptorand_uninit__urandom rng)
        | .other => some []
      match tr? with
      | none => none
      | some tr => some (some cryptorandZero, tr)

/-- `cryptorand_generate` (lines 307–332).  Null pointers yield
`CRYPTORAND_INVALID_ARGS` immediately (before the zero-on-failure step);
otherwise the platform backend runs and, on any non-success result, the first
`byteCount` bytes of the buffer are zeroed. -/
def cryptorand_generate (plat : Platform) (env : Env) (pRNG : Option cryptorand)
    (pBufferOut : Option Buffer) (byteCount : Nat) :
    Option (cryptorand_result × Option Buffer × List Event) :=
  match pRNG, pBufferOut with
  | none, _ => some (CRYPTORAND_INVALID_ARGS, pBufferOut, [])
  | some _, none => some (CRYPTORAND_INVALID_ARGS, none, [])
  | some rng, some buf =>
      let out? :=
        match plat with
        | .win32 => cryptorand_generate__win32 env.win32 rng buf byteCount
        | .urandom => some (cryptorand_generate__urandom env.urandom rng buf byteCount)
        | .other => some (CRYPTORAND_NOT_IMPLEMENTED, buf, [])
      match out? with
      | none => none
      | some (res, buf1, tr) =>
          if res ≠ CRYPTORAND_SUCCESS then some (res, some (zeroMemory buf1 byteCount), tr)
          else some (res, some buf1, tr)

/-- The first `n` bytes of the buffer (as far as it extends) are zero. -/
def zeroedBelow (buf : Buffer) (n : Nat) : Prop :=
  ∀ i, i < n → i < buf.length → buf[i]? = some 0

instance (buf : Buffer) (n : Nat) : Decidable (zeroedBelow buf n) := by
  unfold zeroedBelow
  exact Nat.decidableBallLT n fun i _ => _

/-- Bytes at offsets `>= n` agree between the two buffers. -/
def untouchedFrom (buf buf' : Buffer) (n : Nat) : Prop :=
  ∀ i, n ≤ i → buf'[i]? = buf[i]?

/-- A `win32` source that has a live generation handle (a source for which
`cryptorand_init` succeeded on Windows). -/
abbrev win32Initialized (rng : cryptorand) : Prop :=
  rng.win32.hAlgorithm ≠ none ∨ rng.win32.hProvider ≠ none

/-- The source state left by a successful BCrypt initialization: the modern
handles are populated, everything else is `NULL`. -/
abbrev bcryptShaped (s : cryptorand) : Prop :=
  s.win32.hBcryptDLL ≠ none ∧ s.win32.BCryptOpenAlgorithmProvider ≠ none ∧
  s.win32.BCryptCloseAlgorithmProvider ≠ none ∧ s.win32.BCryptGenRandom ≠ none ∧
  s.win32.hAlgorithm ≠ none ∧ s.win32.hAdvapiDLL = none ∧
  s.win32.CryptAcquireContextW = none ∧ s.win32.CryptReleaseContext = none ∧
  s.win32.CryptGenRandom = none ∧ s.win32.hProvider = none ∧
  s.urandom.pFile = none

/-- The source state left by a successful legacy (advapi32) initialization. -/
abbrev advapiShaped (s : cryptorand) : Prop :=
  s.win32.hBcryptDLL = none ∧ s.win32.BCryptOpenAlgorithmProvider = none ∧
  s.win32.BCryptCloseAlgorithmProvider = none ∧ s.win32.BCryptGenRandom = none ∧
  s.win32.hAlgorithm = none ∧ s.win32.hAdvapiDLL ≠ none ∧
  s.win32.CryptAcquireContextW ≠ none ∧ s.win32.CryptReleaseContext ≠ none ∧
  s.win32.CryptGenRandom ≠ none ∧ s.win32.hProvider ≠ none ∧
  s.urandom.pFile = none

/-- The source state left by a successful `/dev/urandom` initialization. -/
abbrev urandomShaped (s : cryptorand) : Prop :=
  s.win32 = win32Zero ∧ s.urandom.pFile ≠ none

/-- The source states reachable through the public API on a given platform. -/
abbrev reachableState (plat : Platform) (s : cryptorand) : Prop :=
  s = cryptorandZero ∨
  (plat = Platform.win32 ∧ (bcryptShaped s ∨ advapiShaped s)) ∨
  (plat = Platform.urandom ∧ urandomShaped s)

/-- No backend handle of any kind is live: the uninitialized state. -/
abbrev noBackendActive (s : cryptorand) : Prop :=
  s.win32.hAlgorithm = none ∧ s.win32.hProvider = none ∧ s.urandom.pFile = none

/-- The platform's primary backend is active (BCrypt on Windows, the entropy
device on Linux). -/
abbrev primaryActive (plat : Platform) (s : cryptorand) : Prop :=
  match plat with
  | .win32 => s.win32.hAlgorithm ≠ none
  | .urandom => s.urandom.pFile ≠ none
  | .other => False

/-- The platform's fallback backend is active (CryptGenRandom on Windows;
no other platform has a fallback). -/
abbrev fallbackActive (plat : Platform) (s : cryptorand) : Prop :=
  match plat with
  | .win32 => s.win32.hProvider ≠ none
  | .urandom => False
  | .other => False

/-- Exactly one of {uninitialized, primary-active, fallback-active} holds. -/
abbrev exactlyOneBackend (plat : Platform) (s : cryptorand) : Prop :=
  (noBackendActive s ∧ ¬ primaryActive plat s ∧ ¬ fallbackActive plat s) ∨
  (primaryActive plat s ∧ ¬ noBackendActive s ∧ ¬ fallbackActive plat s) ∨
  (fallbackActive plat s ∧ ¬ noBackendActive s ∧ ¬ primaryActive plat s)

/-- One API call on a source, with the environment the call sees.  `release`
takes no environment because the teardown calls return nothing the code
consults. -/
inductive Op where
  | init (env : Env)
  | generate (env : Env) (buf : Buffer) (byteCount : Nat)
  | uninit

/-- The effect of one API call on the source object (the caller passes a
non-null pointer to its one source).  `none` means the call faulted. -/
def stepOp (plat : Platform) (s : cryptorand) (op : Op) : Option cryptorand :=
  match op with
  | .init env =>
      match (cryptorand_init plat env (some s)).2.1 with
      | some s1 => some s1
      | none => none
  | .generate env buf n =>
      match cryptorand_generate plat env (some s) (some buf) n with
      | some _ => some s
      | none => none
  | .uninit =>
      match cryptorand_uninit plat (some s) with
      | some (some s1, _) => some s1
      | _ => none

/-- Run a sequence of API calls on one source, starting from a fresh
zero-initialized object. -/
def runOps (plat : Platform) (ops : List Op) : Option cryptorand :=
  ops.foldl (fun acc op => acc.bind fun s => stepOp plat s op) (some cryptorandZero)

/-- The BCrypt attempt inside `cryptorand_init__win32` fails at some step:
either the DLL does not load, or a symbol is missing, or
`BCryptOpenAlgorithmProvider` reports failure. -/
def primaryAttemptFails (env : Win32Env) : Bool :=
  match env.LoadLibraryW sBcryptDll with
  | none => true
  | some hB =>
      !((env.GetProcAddress hB sBCryptOpen).isSome &&
        (env.GetProcAddress hB sBCryptClose).isSome &&
        (env.GetProcAddress hB sBCryptGen).isSome &&
        env.BCryptOpenAlgorithmProviderImpl.isSome)

/-- The byte stream the active OS backend would deliver for a request of
`byteCount` bytes, used to state what a successful generate call writes. -/
def osBytes (plat : Platform) (env : Env) (rng : cryptorand) (byteCount : Nat) : Nat → Nat :=
  match plat with
  | .win32 =>
      match rng.win32.hAlgorithm with
      | some _ => (env.win32.BCryptGenRandomImpl (byteCount % 4294967296)).getD fun _ => 0
      | none => (env.win32.CryptGenRandomImpl (byteCount % 4294967296)).getD fun _ => 0
  | .urandom => (env.urandom.freadImpl byteCount).2
  | .other => fun _ => 0

/-- The platform backend a generate call would use is live. -/
abbrev backendReady (plat : Platform) (rng : cryptorand) : Prop :=
  match plat with
  | .win32 => rng.win32.hAlgorithm ≠ none ∨ rng.win32.hProvider ≠ none
  | .urandom => rng.urandom.pFile ≠ none
  | .other => True

/-- An environment in which every OS service fails. -/
def envAllFail : Env :=
  ⟨⟨fun _ => none, fun _ _ => none, none, fun _ => none, none, fun _ => none⟩,
   ⟨none, fun _ => (0, fun _ => 0)⟩⟩

/-- An environment in which every OS service succeeds; `fread` returns
exactly the requested number of bytes, byte `i` being `i + 1`. -/
def envAllOk : Env :=
  ⟨⟨fun _ => some 1, fun _ _ => some 2, some 3, fun _ => some fun _ => 7,
    some 4, fun _ => some fun _ => 8⟩,
   ⟨some 1, fun n => (n, fun i => i + 1)⟩⟩

/-- An environment in which `bcrypt.dll` loads (as module 10) but its symbols
cannot be resolved, while the advapi32 fallback (module 20) fully works. -/
def envBcryptSymbolsMissing : Env :=
  ⟨⟨fun name => if name = sBcryptDll then some 10 else some 20,
    fun h _ => if h = 10 then none else some 2,
    some 3, fun _ => some fun _ => 7, some 30, fun _ => some fun _ => 8⟩,
   ⟨none, fun _ => (0, fun _ => 0)⟩⟩

/-- An environment whose `fread` always reads 0 bytes (e.g. end of file). -/
def envShortRead : Env :=
  ⟨⟨fun _ => none, fun _ _ => none, none, fun _ => none, none, fun _ => none⟩,
   ⟨some 1, fun _ => (0, fun _ => 0)⟩⟩

/-- A win32 source as left by a successful BCrypt initialization under
`envAllOk`. -/
def rngBcrypt : cryptorand :=
  ⟨⟨some 1, some 2, some 2, some 2, some 3, none, none, none, none, none⟩, ⟨none⟩⟩

/-- A urandom source as left by a successful initialization under `envAllOk`. -/
def rngUrandom : cryptorand :=
  ⟨win32Zero, ⟨some 1⟩⟩

theorem overwriteFirst_length (buf : Buffer) (n : Nat) (f : Nat → Nat) :
    (overwriteFirst buf n f).length = buf.length := by
  simp [overwriteFirst]

theorem overwriteFirst_getElem_lt (buf : Buffer) (n : Nat) (f : Nat → Nat) (i : Nat)
    (h1 : i < n) (h2 : i < buf.length) :
    (overwriteFirst buf n f)[i]? = some (f i) := by
  simp [overwriteFirst, List.getElem?_map, List.getElem?_range, h1, h2]

theorem overwriteFirst_getElem_ge (buf : Buffer) (n : Nat) (f : Nat → Nat) (i : Nat)
    (h : n ≤ i) :
    (overwriteFirst buf n f)[i]? = buf[i]? := by
  by_cases h2 : i < buf.length
  · rw [List.getElem?_eq_getElem h2]
    simp [overwriteFirst, List.getElem?_map, List.getElem?_range, h2, Nat.not_lt.2 h,
      List.getD_eq_getElem?_getD, List.getElem?_eq_getElem h2]
  · have hlen : buf.length ≤ i := Nat.not_lt.1 h2
    rw [List.getElem?_eq_none hlen, List.getElem?_eq_none]
    rw [overwriteFirst_length]
    exact hlen

theorem zeroMemory_zeroedBelow (buf : Buffer) (n : Nat) :
    zeroedBelow (zeroMemory buf n) n := by
  intro i h1 h2
  have h2' : i < buf.length := by
    simpa [zeroMemory, overwriteFirst_length] using h2
  simpa [zeroMemory] using overwriteFirst_getElem_lt buf n (fun _ => 0) i h1 h2'

theorem zeroMemory_length (buf : Buffer) (n : Nat) :
    (zeroMemory buf n).length = buf.length :=
  overwriteFirst_length buf n _

theorem writeBytes_length (buf : Buffer) (n : Nat) (f : Nat → Nat) :
    (writeBytes buf n f).length = buf.length :=
  overwriteFirst_length buf n _

theorem writeBytes_untouchedFrom (buf : Buffer) (n : Nat) (f : Nat → Nat) :
    untouchedFrom buf (writeBytes buf n f) n := by
  intro i h
  exact overwriteFirst_getElem_ge buf n _ i h
theorem fallback_split (env : Win32Env) (rng : cryptorand) (tr : List Event) :
    cryptorand_init__win32_fallback env rng tr =
      ((cryptorand_init__win32_fallback env rng []).1,
       (cryptorand_init__win32_fallback env rng []).2.1,
       tr ++ (cryptorand_init__win32_fallback env rng []).2.2) := by
  unfold cryptorand_init__win32_fallback
  cases h : env.LoadLibraryW sAdvapiDll with
  | none => simp
  | some hA =>
      simp only []
      split
      · cases h2 : env.CryptAcquireContextWImpl <;> simp
      · simp

theorem fallback_result (env : Win32Env) (rng : cryptorand) (tr : List Event) :
    (cryptorand_init__win32_fallback env rng tr).1 = CRYPTORAND_SUCCESS ∨
    (cryptorand_init__win32_fallback env rng tr).1 = CRYPTORAND_ERROR := by
  unfold cryptorand_init__win32_fallback
  cases h : env.LoadLibraryW sAdvapiDll with
  | none => simp
  | some hA =>
      simp only []
      split
      · cases h2 : env.CryptAcquireContextWImpl <;> simp
      · simp
theorem fallback_chars (env : Win32Env) (rng : cryptorand) (tr : List Event) :
    ((cryptorand_init__win32_fallback env rng tr).1 = CRYPTORAND_ERROR ∧
     (cryptorand_init__win32_fallback env rng tr).2.1 = { rng with win32 := win32Zero }) ∨
    ((cryptorand_init__win32_fallback env rng tr).1 = CRYPTORAND_SUCCESS ∧
     (rng.urandom.pFile = none → advapiShaped (cryptorand_init__win32_fallback env rng tr).2.1)) := by
  unfold cryptorand_init__win32_fallback
  cases hl : env.LoadLibraryW sAdvapiDll with
  | none => left; simp
  | some hA =>
      simp only []
      split
      · next hc =>
          cases h2 : env.CryptAcquireContextWImpl with
          | none => left; simp
          | some hProv =>
              right
              simp only [Bool.and_eq_true, Option.isSome_iff_ne_none] at hc
              constructor
              · simp
              · intro hu
                simp [advapiShaped, win32Zero, hu, hc.1.1, hc.1.2, hc.2]
      · left; simp

theorem fallback_no_free (env : Win32Env) (rng : cryptorand) (tr : List Event)
    (htr : tr.all (fun e => ! e.isFreeLibrary) = true) :
    ((cryptorand_init__win32_fallback env rng tr).2.2).all (fun e => ! e.isFreeLibrary) = true := by
  unfold cryptorand_init__win32_fallback
  cases hl : env.LoadLibraryW sAdvapiDll with
  | none => simpa [List.all_append, List.all_eq_true, Event.isFreeLibrary] using htr
  | some hA =>
      simp only []
      split
      · cases h2 : env.CryptAcquireContextWImpl <;>
          simpa [List.all_append, List.all_eq_true, Event.isFreeLibrary] using htr
      · simpa [List.all_append, List.all_eq_true, Event.isFreeLibrary] using htr
theorem init_win32_chars (env : Win32Env) (rng : cryptorand) :
    ((cryptorand_init__win32 env rng).1 = CRYPTORAND_ERROR ∧
     (cryptorand_init__win32 env rng).2.1 = { rng with win32 := win32Zero }) ∨
    ((cryptorand_init__win32 env rng).1 = CRYPTORAND_SUCCESS ∧
     (rng.urandom.pFile = none →
       bcryptShaped (cryptorand_init__win32 env rng).2.1 ∨
       advapiShaped (cryptorand_init__win32 env rng).2.1)) := by
  unfold cryptorand_init__win32
  cases hl : env.LoadLibraryW sBcryptDll with
  | none =>
      rcases fallback_chars env { rng with win32 := win32Zero }
          [Event.loadLibrary sBcryptDll none] with ⟨h1, h2⟩ | ⟨h1, h2⟩
      · left
        refine ⟨h1, ?_⟩
        rw [h2]
      · right
        exact ⟨h1, fun hu => Or.inr (h2 hu)⟩
  | some hB =>
      simp only []
      split
      · next hc =>
          cases h2 : env.BCryptOpenAlgorithmProviderImpl with
          | some hAlg =>
              right
              simp only [Bool.and_eq_true, Option.isSome_iff_ne_none] at hc
              constructor
              · simp
              · intro hu
                left
                simp [bcryptShaped, win32Zero, hu, hc.1.1, hc.1.2, hc.2]
          | none =>
              rcases fallback_chars env { rng with win32 := win32Zero }
                  ([Event.loadLibrary sBcryptDll (some hB),
                    Event.getProcAddress hB sBCryptOpen (env.GetProcAddress hB sBCryptOpen),
                    Event.getProcAddress hB sBCryptClose (env.GetProcAddress hB sBCryptClose),
                    Event.getProcAddress hB sBCryptGen (env.GetProcAddress hB sBCryptGen)] ++
                   [Event.bcryptOpenAlgorithmProvider false]) with ⟨h1, h3⟩ | ⟨h1, h3⟩
              · left
                refine ⟨h1, ?_⟩
                rw [h3]
              · right
                exact ⟨h1, fun hu => Or.inr (h3 hu)⟩
      · rcases fallback_chars env { rng with win32 := win32Zero }
            [Event.loadLibrary sBcryptDll (some hB),
             Event.getProcAddress hB sBCryptOpen (env.GetProcAddress hB sBCryptOpen),
             Event.getProcAddress hB sBCryptClose (env.GetProcAddress hB sBCryptClose),
             Event.getProcAddress hB sBCryptGen (env.GetProcAddress hB sBCryptGen)] with
            ⟨h1, h3⟩ | ⟨h1, h3⟩
        · left
          refine ⟨h1, ?_⟩
          rw [h3]
        · right
          exact ⟨h1, fun hu => Or.inr (h3 hu)⟩
theorem init_win32_no_free (env : Win32Env) (rng : cryptorand) :
    ((cryptorand_init__win32 env rng).2.2).all (fun e => ! e.isFreeLibrary) = true := by
  unfold cryptorand_init__win32
  cases hl : env.LoadLibraryW sBcryptDll with
  | none => exact fallback_no_free env _ _ (by simp [Event.isFreeLibrary])
  | some hB =>
      simp only []
      split
      · cases h2 : env.BCryptOpenAlgorithmProviderImpl with
        | some hAlg => simp [Event.isFreeLibrary]
        | none => exact fallback_no_free env _ _ (by simp [Event.isFreeLibrary])
      · exact fallback_no_free env _ _ (by simp [Event.isFreeLibrary])

theorem init_win32_absorbs (env : Win32Env) (rng : cryptorand)
    (h : primaryAttemptFails env = true) :
    (cryptorand_init__win32 env rng).1 =
      (cryptorand_init__win32_fallback env { rng with win32 := win32Zero } []).1 ∧
    (cryptorand_init__win32 env rng).2.1 =
      (cryptorand_init__win32_fallback env { rng with win32 := win32Zero } []).2.1 := by
  unfold primaryAttemptFails at h
  unfold cryptorand_init__win32
  cases hl : env.LoadLibraryW sBcryptDll with
  | none =>
      simp only []
      rw [fallback_split env { rng with win32 := win32Zero } [Event.loadLibrary sBcryptDll none]]
      exact ⟨rfl, rfl⟩
  | some hB =>
      simp only [hl] at h
      simp only []
      split
      · next hc =>
          cases h2 : env.BCryptOpenAlgorithmProviderImpl with
          | some hAlg =>
              exfalso
              rw [hc, h2] at h
              simp at h
          | none =>
              rw [fallback_split env { rng with win32 := win32Zero }
                ([Event.loadLibrary sBcryptDll (some hB),
                  Event.getProcAddress hB sBCryptOpen (env.GetProcAddress hB sBCryptOpen),
                  Event.getProcAddress hB sBCryptClose (env.GetProcAddress hB sBCryptClose),
                  Event.getProcAddress hB sBCryptGen (env.GetProcAddress hB sBCryptGen)] ++
                 [Event.bcryptOpenAlgorithmProvider false])]
              exact ⟨rfl, rfl⟩
      · rw [fallback_split env { rng with win32 := win32Zero }
            [Event.loadLibrary sBcryptDll (some hB),
             Event.getProcAddress hB sBCryptOpen (env.GetProcAddress hB sBCryptOpen),
             Event.getProcAddress hB sBCryptClose (env.GetProcAddress hB sBCryptClose),
             Event.getProcAddress hB sBCryptGen (env.GetProcAddress hB sBCryptGen)]]
        exact ⟨rfl, rfl⟩
theorem init_urandom_chars (env : UrandomEnv) (rng : cryptorand) :
    ((cryptorand_init__urandom env rng).1 = CRYPTORAND_ERROR ∧
     (cryptorand_init__urandom env rng).2.1 = { rng with urandom := ⟨none⟩ }) ∨
    ((cryptorand_init__urandom env rng).1 = CRYPTORAND_SUCCESS ∧
     (cryptorand_init__urandom env rng).2.1.urandom.pFile ≠ none ∧
     (cryptorand_init__urandom env rng).2.1.win32 = rng.win32) := by
  unfold cryptorand_init__urandom
  cases h : env.fopenImpl with
  | none => left; simp
  | some hF => right; simp

theorem init_dispatch_reachable (plat : Platform) (env : Env) (s s1 : cryptorand)
    (h : (cryptorand_init plat env (some s)).2.1 = some s1) :
    reachableState plat s1 := by
  unfold cryptorand_init at h
  simp only [] at h
  cases plat with
  | win32 =>
      rcases init_win32_chars env.win32 cryptorandZero with ⟨h1, _⟩ | ⟨h1, h2⟩
      · simp only [h1] at h
        simp at h
        left
        exact h.symm
      · simp only [h1] at h
        simp at h
        rcases h2 (by rfl) with hsh | hsh
        · right; left
          refine ⟨rfl, Or.inl ?_⟩
          rw [← h]
          exact hsh
        · right; left
          refine ⟨rfl, Or.inr ?_⟩
          rw [← h]
          exact hsh
  | urandom =>
      rcases init_urandom_chars env.urandom cryptorandZero with ⟨h1, _⟩ | ⟨h1, h2, h3⟩
      · simp only [h1] at h
        simp at h
        left
        exact h.symm
      · simp only [h1] at h
        simp at h
        right; right
        refine ⟨rfl, ?_, ?_⟩
        · rw [← h, h3]
          rfl
        · rw [← h]
          exact h2
  | other =>
      simp at h
      left
      exact h.symm
theorem step_generate_state (plat : Platform) (s : cryptorand) (env : Env) (buf : Buffer)
    (n : Nat) (s1 : cryptorand) (h : stepOp plat s (Op.generate env buf n) = some s1) :
    s1 = s := by
  unfold stepOp at h
  simp only [] at h
  cases hg : cryptorand_generate plat env (some s) (some buf) n with
  | none => rw [hg] at h; simp at h
  | some out => rw [hg] at h; simpa using h.symm

theorem step_uninit_state (plat : Platform) (s : cryptorand) (s1 : cryptorand)
    (h : stepOp plat s Op.uninit = some s1) : s1 = cryptorandZero := by
  unfold stepOp cryptorand_uninit at h
  simp only [] at h
  cases htr : (match plat with
               | Platform.win32 => cryptorand_uninit__win32 s
               | Platform.urandom => some (cryptorand_uninit__urandom s)
               | Platform.other => some []) with
  | none => rw [htr] at h; simp at h
  | some tr => rw [htr] at h; simpa using h.symm

theorem step_init_reachable (plat : Platform) (s : cryptorand) (env : Env) (s1 : cryptorand)
    (h : stepOp plat s (Op.init env) = some s1) : reachableState plat s1 := by
  unfold stepOp at h
  simp only [] at h
  cases hi : (cryptorand_init plat env (some s)).2.1 with
  | none => rw [hi] at h; simp at h
  | some s2 =>
      rw [hi] at h
      simp at h
      subst h
      exact init_dispatch_reachable plat env s s2 hi

theorem step_reachable (plat : Platform) (s : cryptorand) (op : Op) (s1 : cryptorand)
    (hs : reachableState plat s) (h : stepOp plat s op = some s1) :
    reachableState plat s1 := by
  cases op with
  | init env => exact step_init_reachable plat s env s1 h
  | generate env buf n => rw [step_generate_state plat s env buf n s1 h]; exact hs
  | uninit => rw [step_uninit_state plat s s1 h]; left; rfl

theorem foldl_step_none (plat : Platform) (ops : List Op) :
    ops.foldl (fun acc op => acc.bind fun s => stepOp plat s op) none = none := by
  induction ops with
  | nil => rfl
  | cons op rest ih => simpa using ih

theorem foldl_step_reachable (plat : Platform) (ops : List Op) (s0 : cryptorand)
    (hs0 : reachableState plat s0) (s : cryptorand)
    (h : ops.foldl (fun acc op => acc.bind fun s => stepOp plat s op) (some s0) = some s) :
    reachableState plat s := by
  induction ops generalizing s0 with
  | nil => simp at h; rw [← h]; exact hs0
  | cons op rest ih =>
      simp only [List.foldl_cons, Option.some_bind] at h
      cases hstep : stepOp plat s0 op with
      | none => rw [hstep] at h; rw [foldl_step_none] at h; exact absurd h (by simp)
      | some s1 =>
          rw [hstep] at h
          exact ih s1 (step_reachable plat s0 op s1 hs0 hstep) h

theorem runOps_reachable (plat : Platform) (ops : List Op) (s : cryptorand)
    (h : runOps plat ops = some s) : reachableState plat s :=
  foldl_step_reachable plat ops cryptorandZero (Or.inl rfl) s h
theorem uninit_resets (plat : Platform) (s : cryptorand) (h : reachableState plat s) :
    ∃ tr, cryptorand_uninit plat (some s) = some (some cryptorandZero, tr) := by
  cases plat with
  | win32 =>
      rcases h with hz | ⟨_, hsh | hsh⟩ | ⟨hp, _⟩
      · subst hz
        exact ⟨[], rfl⟩
      · obtain ⟨h1, h2, h3, h4, h5, h6, h7, h8, h9, h10, h11⟩ := hsh
        obtain ⟨b, hb⟩ := Option.ne_none_iff_exists'.1 h1
        obtain ⟨c, hc⟩ := Option.ne_none_iff_exists'.1 h3
        obtain ⟨a, ha⟩ := Option.ne_none_iff_exists'.1 h5
        refine ⟨[Event.bcryptCloseAlgorithmProvider a, Event.freeLibrary b], ?_⟩
        unfold cryptorand_uninit cryptorand_uninit__win32
        simp [ha, hc, hb, h6]
      · obtain ⟨h1, h2, h3, h4, h5, h6, h7, h8, h9, h10, h11⟩ := hsh
        obtain ⟨d, hd⟩ := Option.ne_none_iff_exists'.1 h6
        obtain ⟨r, hr⟩ := Option.ne_none_iff_exists'.1 h8
        obtain ⟨p, hp⟩ := Option.ne_none_iff_exists'.1 h10
        refine ⟨[Event.cryptReleaseContext p, Event.freeLibrary d], ?_⟩
        unfold cryptorand_uninit cryptorand_uninit__win32
        simp [h5, hp, hr, h1, hd]
      · exact absurd hp (by simp)
  | urandom =>
      exact ⟨cryptorand_uninit__urandom s, rfl⟩
  | other =>
      exact ⟨[], rfl⟩

theorem uninit_zero_noop (plat : Platform) :
    cryptorand_uninit plat (some cryptorandZero) = some (some cryptorandZero, []) := by
  cases plat <;> rfl
theorem generate_win32_buflen (env : Win32Env) (rng : cryptorand) (buf : Buffer) (n : Nat)
    (out : cryptorand_result × Buffer × List Event)
    (h : cryptorand_generate__win32 env rng buf n = some out) :
    out.2.1.length = buf.length := by
  obtain ⟨res3, b3, tr3⟩ := out
  unfold cryptorand_generate__win32 at h
  split at h
  · simp at h
    obtain ⟨h1, h2, h3⟩ := h
    subst h2
    rfl
  · split at h
    · split at h
      · simp at h
      · simp only [] at h
        cases hi : env.BCryptGenRandomImpl (n % 4294967296) with
        | some f =>
            rw [hi] at h
            simp at h
            obtain ⟨h1, h2, h3⟩ := h
            subst h2
            exact writeBytes_length buf _ _
        | none =>
            rw [hi] at h
            simp at h
            obtain ⟨h1, h2, h3⟩ := h
            subst h2
            rfl
    · split at h
      · split at h
        · simp at h
        · simp only [] at h
          cases hi : env.CryptGenRandomImpl (n % 4294967296) with
          | some f =>
              rw [hi] at h
              simp at h
              obtain ⟨h1, h2, h3⟩ := h
              subst h2
              exact writeBytes_length buf _ _
          | none =>
              rw [hi] at h
              simp at h
              obtain ⟨h1, h2, h3⟩ := h
              subst h2
              rfl
      · simp at h
        obtain ⟨h1, h2, h3⟩ := h
        subst h2
        rfl

theorem generate_urandom_buflen (env : UrandomEnv) (rng : cryptorand) (buf : Buffer) (n : Nat) :
    (cryptorand_generate__urandom env rng buf n).2.1.length = buf.length := by
  unfold cryptorand_generate__urandom
  split
  · rfl
  · simp only []
    split <;> exact writeBytes_length buf _ _

theorem generate_nonnull_buffer (plat : Platform) (env : Env) (rng : cryptorand) (buf : Buffer)
    (n : Nat) (res : cryptorand_result) (buf' : Buffer) (tr : List Event)
    (h : cryptorand_generate plat env (some rng) (some buf) n = some (res, some buf', tr)) :
    buf'.length = buf.length ∧ (res ≠ CRYPTORAND_SUCCESS → zeroedBelow buf' n) := by
  unfold cryptorand_generate at h
  simp only [] at h
  cases plat with
  | win32 =>
      cases hg : cryptorand_generate__win32 env.win32 rng buf n with
      | none => rw [hg] at h; simp at h
      | some out3 =>
          rw [hg] at h
          obtain ⟨res3, b3, tr3⟩ := out3
          have hlen : b3.length = buf.length := generate_win32_buflen env.win32 rng buf n _ hg
          simp only [] at h
          split at h
          · simp at h
            obtain ⟨hres, hbuf, htr⟩ := h
            refine ⟨?_, fun _ => ?_⟩
            · rw [← hbuf, zeroMemory_length, hlen]
            · rw [← hbuf]; exact zeroMemory_zeroedBelow b3 n
          · next hres3 =>
              simp at h
              obtain ⟨hres, hbuf, htr⟩ := h
              refine ⟨?_, fun hcon => ?_⟩
              · rw [← hbuf, hlen]
              · exact absurd (by rw [← hres]; simpa using hres3) hcon
  | urandom =>
      have hlen : (cryptorand_generate__urandom env.urandom rng buf n).2.1.length = buf.length :=
        generate_urandom_buflen env.urandom rng buf n
      simp only [] at h
      split at h
      · simp at h
        obtain ⟨hres, hbuf, htr⟩ := h
        refine ⟨?_, fun _ => ?_⟩
        · rw [← hbuf, zeroMemory_length, hlen]
        · rw [← hbuf]; exact zeroMemory_zeroedBelow _ n
      · next hres3 =>
          simp at h
          obtain ⟨hres, hbuf, htr⟩ := h
          refine ⟨?_, fun hcon => ?_⟩
          · rw [← hbuf, hlen]
          · exact absurd (by rw [← hres]; simpa using hres3) hcon
  | other =>
      simp only [] at h
      split at h
      · simp at h
        obtain ⟨hres, hbuf, htr⟩ := h
        refine ⟨?_, fun _ => ?_⟩
        · rw [← hbuf, zeroMemory_length]
        · rw [← hbuf]; exact zeroMemory_zeroedBelow buf n
      · simp_all
theorem generate_win32_success_write (env : Win32Env) (rng : cryptorand) (buf : Buffer)
    (n : Nat) (b1 : Buffer) (tr1 : List Event)
    (h : cryptorand_generate__win32 env rng buf n = some (CRYPTORAND_SUCCESS, b1, tr1))
    (hready : rng.win32.hAlgorithm ≠ none ∨ rng.win32.hProvider ≠ none) :
    b1 = writeBytes buf n
      ((match rng.win32.hAlgorithm with
        | some _ => env.BCryptGenRandomImpl (n % 4294967296)
        | none => env.CryptGenRandomImpl (n % 4294967296)).getD fun _ => 0) := by
  unfold cryptorand_generate__win32 at h
  split at h
  · simp at h
  · next hbig =>
      have hmod : n % 4294967296 = n := Nat.mod_eq_of_lt (by omega)
      split at h
      · next ha =>
          split at h
          · simp at h
          · simp only [] at h
            cases hi : env.BCryptGenRandomImpl (n % 4294967296) with
            | some f =>
                rw [hi] at h
                simp at h
                rw [← h.1, hmod]
                simp [ha, hi]
            | none =>
                rw [hi] at h
                simp at h
      · next ha =>
          split at h
          · split at h
            · simp at h
            · simp only [] at h
              cases hi : env.CryptGenRandomImpl (n % 4294967296) with
              | some f =>
                  rw [hi] at h
                  simp at h
                  rw [← h.1, hmod]
                  simp [ha, hi]
              | none =>
                  rw [hi] at h
                  simp at h
          · next hp =>
              rw [ha, hp] at hready
              simp at hready

theorem generate_urandom_success_write (env : UrandomEnv) (rng : cryptorand) (buf : Buffer)
    (n : Nat) (b1 : Buffer) (tr1 : List Event)
    (h : cryptorand_generate__urandom env rng buf n = (CRYPTORAND_SUCCESS, b1, tr1))
    (hwf : (env.freadImpl n).1 ≤ n) :
    b1 = writeBytes buf n (env.freadImpl n).2 := by
  unfold cryptorand_generate__urandom at h
  split at h
  · simp at h
  · simp only [] at h
    split at h
    · simp at h
    · next hge =>
        have hn : (env.freadImpl n).1 = n := by omega
        simp at h
        rw [← h.1, hn]

theorem generate_urandom_short (env : UrandomEnv) (rng : cryptorand) (buf : Buffer) (n : Nat)
    (hp : rng.urandom.pFile ≠ none)
    (hshort : (env.freadImpl n).1 < n) :
    cryptorand_generate__urandom env rng buf n =
      (CRYPTORAND_ERROR, writeBytes buf (env.freadImpl n).1 (env.freadImpl n).2,
       [Event.freadEv n (env.freadImpl n).1]) := by
  obtain ⟨p, hpv⟩ := Option.ne_none_iff_exists'.1 hp
  unfold cryptorand_generate__urandom
  simp [hpv, hshort]
/-- C10: calling `cryptorand_uninit` with a `NULL` source pointer is a safe
no-op: it returns immediately without dereferencing the pointer, without any
backend teardown call, and with no other effect. -/
theorem C10_uninit_null_noop (plat : Platform) :
    cryptorand_uninit plat none = some (none, []) := rfl

/-- C1 counterexample: with a `NULL` source pointer and a valid non-null
buffer, `cryptorand_generate` returns the invalid-args failure but leaves the
buffer's prior content (here the single byte 5) in place — the destination is
not zeroed on this failure path, contradicting the claim. -/
theorem C1_counterexample :
    cryptorand_generate Platform.urandom envAllFail none (some [5]) 1 =
      some (CRYPTORAND_INVALID_ARGS, some [5], []) ∧
    ¬ zeroedBelow [5] 1 := by
  exact ⟨rfl, by decide⟩

/-- C1 (amended): whenever `cryptorand_generate` is called with non-null
source and buffer pointers and returns a result other than success, the first
`byteCount` bytes of the buffer are zero on return (and the buffer length is
unchanged); when the source pointer is `NULL` the function instead returns
invalid-args immediately, leaving the buffer untouched. -/
theorem C1_generate_failure_zeroes (plat : Platform) (env : Env) (rng : cryptorand)
    (buf : Buffer) (n : Nat) :
    (∀ res buf' tr,
        cryptorand_generate plat env (some rng) (some buf) n = some (res, some buf', tr) →
        res ≠ CRYPTORAND_SUCCESS →
        buf'.length = buf.length ∧ zeroedBelow buf' n) ∧
    cryptorand_generate plat env none (some buf) n =
      some (CRYPTORAND_INVALID_ARGS, some buf, []) := by
  constructor
  · intro res buf' tr h hres
    have hb := generate_nonnull_buffer plat env rng buf n res buf' tr h
    exact ⟨hb.1, hb.2 hres⟩
  · rfl

/-- C1 witness: a concrete failing generate call (uninitialized urandom
source) on which the amended theorem's zeroing conclusion is discharged. -/
theorem C1_witness :
    cryptorand_generate Platform.urandom envAllFail (some cryptorandZero) (some [5, 6]) 2 =
      some (CRYPTORAND_INVALID_OPERATION, some [0, 0], []) ∧
    ([0, 0] : Buffer).length = ([5, 6] : Buffer).length ∧ zeroedBelow [0, 0] 2 :=
  ⟨by decide,
   (C1_generate_failure_zeroes Platform.urandom envAllFail cryptorandZero [5, 6] 2).1
     CRYPTORAND_INVALID_OPERATION [0, 0] [] (by decide) (by decide)⟩

/-- C2 counterexample: on the win32 build, a source whose backend fields are
all zero (never initialized) makes `cryptorand_generate` return SUCCESS with
the buffer untouched and no backend call made — not the claimed
invalid-operation failure. -/
theorem C2_counterexample :
    cryptorand_generate Platform.win32 envAllOk (some cryptorandZero) (some [7]) 1 =
      some (CRYPTORAND_SUCCESS, some [7], []) ∧
    CRYPTORAND_SUCCESS ≠ CRYPTORAND_INVALID_OPERATION := by
  exact ⟨rfl, by decide⟩

/-- C2 (amended): on the urandom build, generating from a never-initialized
source fails deterministically with invalid-operation (and zeroes the
requested range); on the win32 build the same call instead falls through both
handle checks and returns success with the buffer untouched and no backend
call recorded. -/
theorem C2_uninitialized_generate (env : Env) (buf : Buffer) (n : Nat) :
    cryptorand_generate Platform.urandom env (some cryptorandZero) (some buf) n =
      some (CRYPTORAND_INVALID_OPERATION, some (zeroMemory buf n), []) ∧
    (n ≤ 4294967295 →
      cryptorand_generate Platform.win32 env (some cryptorandZero) (some buf) n =
        some (CRYPTORAND_SUCCESS, some buf, [])) := by
  constructor
  · rfl
  · intro hn
    unfold cryptorand_generate cryptorand_generate__win32
    simp [cryptorandZero, win32Zero, Nat.not_lt.2 hn]

/-- C2 witness: the win32 silent-success conclusion at a concrete input. -/
theorem C2_witness :
    cryptorand_generate Platform.win32 envAllOk (some cryptorandZero) (some [9]) 1 =
      some (CRYPTORAND_SUCCESS, some [9], []) :=
  (C2_uninitialized_generate envAllOk [9] 1).2 (by decide)

/-- C3: on the win32 backend (32-bit length field), an initialized source
given a request larger than 0xFFFFFFFF bytes fails with the distinct TOO_BIG
code, the destination is zeroed for the full requested length, and the empty
external-call trace shows the implementation neither loops over multiple
backend calls nor truncates the request — independent of the environment. -/
theorem C3_too_big (env : Env) (rng : cryptorand) (buf : Buffer) (n : Nat)
    (hinit : win32Initialized rng) (hn : n > 4294967295) :
    cryptorand_generate Platform.win32 env (some rng) (some buf) n =
      some (CRYPTORAND_TOO_BIG, some (zeroMemory buf n), []) := by
  unfold cryptorand_generate cryptorand_generate__win32
  simp [hn]

/-- C3 witness: a 2^32-byte request on an initialized BCrypt source. -/
theorem C3_witness :
    win32Initialized rngBcrypt ∧ 4294967296 > 4294967295 ∧
    cryptorand_generate Platform.win32 envAllOk (some rngBcrypt) (some [5, 6]) 4294967296 =
      some (CRYPTORAND_TOO_BIG, some [0, 0], []) :=
  ⟨by decide, by decide,
   (C3_too_big envAllOk rngBcrypt [5, 6] 4294967296 (by decide) (by decide)).trans (by decide)⟩

/-- C9: on the urandom backend, whenever `fread` returns fewer bytes than
requested, `cryptorand_generate` reports CRYPTORAND_ERROR (and the requested
range is zeroed) — a short read is never surfaced as success or as a valid
partial result. -/
theorem C9_short_read (env : Env) (rng : cryptorand) (buf : Buffer) (n : Nat)
    (hp : rng.urandom.pFile ≠ none)
    (hshort : (env.urandom.freadImpl n).1 < n) :
    cryptorand_generate Platform.urandom env (some rng) (some buf) n =
      some (CRYPTORAND_ERROR,
        some (zeroMemory
          (writeBytes buf (env.urandom.freadImpl n).1 (env.urandom.freadImpl n).2) n),
        [Event.freadEv n (env.urandom.freadImpl n).1]) := by
  unfold cryptorand_generate
  simp only []
  rw [generate_urandom_short env.urandom rng buf n hp hshort]
  rfl

/-- C9 witness: a read that yields 0 of 1 requested bytes. -/
theorem C9_witness :
    rngUrandom.urandom.pFile ≠ none ∧ (envShortRead.urandom.freadImpl 1).1 < 1 ∧
    cryptorand_generate Platform.urandom envShortRead (some rngUrandom) (some [7]) 1 =
      some (CRYPTORAND_ERROR, some [0], [Event.freadEv 1 0]) :=
  ⟨by decide, by decide,
   (C9_short_read envShortRead rngUrandom [7] 1 (by decide) (by decide)).trans (by decide)⟩
theorem init_some_result (plat : Platform) (env : Env) (s : cryptorand) :
    ((cryptorand_init plat env (some s)).1 = CRYPTORAND_SUCCESS ∨
     (cryptorand_init plat env (some s)).1 = CRYPTORAND_ERROR ∨
     (plat = Platform.other ∧
       (cryptorand_init plat env (some s)).1 = CRYPTORAND_NOT_IMPLEMENTED)) ∧
    (plat = Platform.other →
      (cryptorand_init plat env (some s)).1 = CRYPTORAND_NOT_IMPLEMENTED) ∧
    (plat ≠ Platform.other →
      (cryptorand_init plat env (some s)).1 ≠ CRYPTORAND_NOT_IMPLEMENTED) ∧
    (cryptorand_init plat env (some s)).1 ≠ CRYPTORAND_INVALID_ARGS ∧
    ((cryptorand_init plat env (some s)).1 ≠ CRYPTORAND_SUCCESS →
      (cryptorand_init plat env (some s)).2.1 = some cryptorandZero) := by
  unfold cryptorand_init
  simp only []
  cases plat with
  | win32 =>
      rcases init_win32_chars env.win32 cryptorandZero with ⟨h1, _⟩ | ⟨h1, _⟩ <;>
        simp [h1]
  | urandom =>
      rcases init_urandom_chars env.urandom cryptorandZero with ⟨h1, _⟩ | ⟨h1, _, _⟩ <;>
        simp [h1]
  | other => simp

/-- C4: whenever `cryptorand_init` returns anything other than success, the
source object (when a non-null one was supplied) is left with every field in
the zero state, and the failure code distinguishes the three causes: invalid
arguments exactly when the destination pointer is `NULL`, not-implemented
exactly when no platform backend exists, and the generic error otherwise. -/
theorem C4_init_failure (plat : Platform) (env : Env) (pRNG : Option cryptorand) :
    ((cryptorand_init plat env pRNG).1 ≠ CRYPTORAND_SUCCESS →
        (cryptorand_init plat env pRNG).2.1 =
          (if pRNG = none then none else some cryptorandZero)) ∧
    ((cryptorand_init plat env pRNG).1 = CRYPTORAND_INVALID_ARGS ↔ pRNG = none) ∧
    ((cryptorand_init plat env pRNG).1 = CRYPTORAND_NOT_IMPLEMENTED ↔
        (plat = Platform.other ∧ pRNG ≠ none)) ∧
    ((cryptorand_init plat env pRNG).1 = CRYPTORAND_SUCCESS ∨
     (cryptorand_init plat env pRNG).1 = CRYPTORAND_ERROR ∨
     (cryptorand_init plat env pRNG).1 = CRYPTORAND_INVALID_ARGS ∨
     (cryptorand_init plat env pRNG).1 = CRYPTORAND_NOT_IMPLEMENTED) := by
  cases pRNG with
  | none => simp [cryptorand_init]
  | some s =>
      obtain ⟨hres, hother, hnother, hnargs, hzero⟩ := init_some_result plat env s
      refine ⟨?_, ?_, ?_, ?_⟩
      · intro h
        simp [hzero h]
      · constructor
        · intro h
          exact absurd h hnargs
        · intro h
          simp at h
      · constructor
        · intro h
          by_cases hp : plat = Platform.other
          · exact ⟨hp, by simp⟩
          · exact absurd h (hnother hp)
        · rintro ⟨hp, _⟩
          exact hother hp
      · rcases hres with h | h | ⟨_, h⟩
        · exact Or.inl h
        · exact Or.inr (Or.inl h)
        · exact Or.inr (Or.inr (Or.inr h))

/-- C4 witness: on the platform with no backend, init on a non-null source
fails with not-implemented and hands back the all-zero object. -/
theorem C4_witness :
    (cryptorand_init Platform.other envAllFail (some cryptorandZero)).2.1 =
      some cryptorandZero :=
  ((C4_init_failure Platform.other envAllFail (some cryptorandZero)).1
    (by decide)).trans (by decide)

/-- C5: at every point of any sequence of init, generate and release calls on
one source, exactly one of {uninitialized, primary-backend-active,
fallback-backend-active} holds, in the uninitialized state every field is
zero (no stale handles), and the two capability-module handles are never both
live. -/
theorem C5_invariant (plat : Platform) (ops : List Op) (s : cryptorand)
    (h : runOps plat ops = some s) :
    exactlyOneBackend plat s ∧ (noBackendActive s → s = cryptorandZero) ∧
    ¬ (s.win32.hBcryptDLL ≠ none ∧ s.win32.hAdvapiDLL ≠ none) := by
  rcases runOps_reachable plat ops s h with hz | ⟨hp, hsh | hsh⟩ | ⟨hp, hsh⟩
  · subst hz
    refine ⟨?_, fun _ => rfl, by decide⟩
    cases plat <;> decide
  · subst hp
    obtain ⟨h1, h2, h3, h4, h5, h6, h7, h8, h9, h10, h11⟩ := hsh
    refine ⟨Or.inr (Or.inl ⟨h5, ?_, ?_⟩), ?_, ?_⟩
    · intro hn
      exact h5 hn.1
    · simp [fallbackActive, h10]
    · intro hn
      exact absurd hn.1 (by simp [h5])
    · rintro ⟨_, hcon⟩
      exact hcon h6
  · subst hp
    obtain ⟨h1, h2, h3, h4, h5, h6, h7, h8, h9, h10, h11⟩ := hsh
    refine ⟨Or.inr (Or.inr ⟨h10, ?_, ?_⟩), ?_, ?_⟩
    · intro hn
      exact h10 hn.2.1
    · simp [primaryActive, h5]
    · intro hn
      exact absurd hn.2.1 (by simp [h10])
    · rintro ⟨hcon, _⟩
      exact hcon h1
  · subst hp
    obtain ⟨hw, hf⟩ := hsh
    refine ⟨Or.inr (Or.inl ⟨hf, ?_, ?_⟩), ?_, ?_⟩
    · intro hn
      exact hf hn.2.2
    · simp [fallbackActive]
    · intro hn
      exact absurd hn.2.2 (by simp [hf])
    · rintro ⟨hcon, _⟩
      rw [hw] at hcon
      exact hcon rfl
/-- C5 witness: one successful BCrypt init step lands in the primary-active
state, on which the invariant is discharged. -/
theorem C5_witness :
    runOps Platform.win32 [Op.init envAllOk] = some rngBcrypt ∧
    exactlyOneBackend Platform.win32 rngBcrypt :=
  ⟨by decide, (C5_invariant Platform.win32 [Op.init envAllOk] rngBcrypt (by decide)).1⟩

theorem init_win32_proj1 (env : Env) (s : cryptorand) :
    (cryptorand_init Platform.win32 env (some s)).1 =
      (cryptorand_init__win32 env.win32 cryptorandZero).1 := by
  unfold cryptorand_init
  simp only []
  split <;> rfl

theorem init_win32_proj2 (env : Env) (s : cryptorand) :
    (cryptorand_init Platform.win32 env (some s)).2.1 =
      (if (cryptorand_init__win32 env.win32 cryptorandZero).1 = CRYPTORAND_SUCCESS
       then some (cryptorand_init__win32 env.win32 cryptorandZero).2.1
       else some cryptorandZero) := by
  unfold cryptorand_init
  simp only []
  split
  · next hc => simp [fun h => hc h]
  · next hc => simp at hc; simp [hc]

theorem init_win32_proj3 (env : Env) (s : cryptorand) :
    (cryptorand_init Platform.win32 env (some s)).2.2 =
      (cryptorand_init__win32 env.win32 cryptorandZero).2.2 := by
  unfold cryptorand_init
  simp only []
  split <;> rfl

/-- C6 counterexample: in an environment where `bcrypt.dll` loads (module
handle 10) but its symbols cannot be resolved, init falls back to the legacy
backend and succeeds, yet the trace contains the load of `bcrypt.dll` and no
`FreeLibrary` for it — the loaded capability is not released, contradicting
the claim's "fully undone" part. -/
theorem C6_counterexample :
    (cryptorand_init Platform.win32 envBcryptSymbolsMissing (some cryptorandZero)).1 =
      CRYPTORAND_SUCCESS ∧
    Event.loadLibrary sBcryptDll (some 10) ∈
      (cryptorand_init Platform.win32 envBcryptSymbolsMissing (some cryptorandZero)).2.2 ∧
    Event.freeLibrary 10 ∉
      (cryptorand_init Platform.win32 envBcryptSymbolsMissing (some cryptorandZero)).2.2 := by
  refine ⟨by decide, by decide, by decide⟩

/-- C6 (amended): whenever any discovery, symbol-resolution or provider-open
step of the BCrypt attempt fails, the failure is silently absorbed: the
outcome of init is exactly the outcome of the legacy fallback block run on a
re-zeroed object (the caller sees only the fallback's verdict, and on total
failure a fully zeroed object); however, no `FreeLibrary` call ever occurs
during init, so a capability module loaded for the failed attempt is NOT
released before the legacy backend is attempted. -/
theorem C6_primary_failure_absorbed (env : Env) (s : cryptorand)
    (h : primaryAttemptFails env.win32 = true) :
    (cryptorand_init Platform.win32 env (some s)).1 =
      (cryptorand_init__win32_fallback env.win32 cryptorandZero []).1 ∧
    ((cryptorand_init Platform.win32 env (some s)).1 ≠ CRYPTORAND_SUCCESS →
      (cryptorand_init Platform.win32 env (some s)).2.1 = some cryptorandZero) ∧
    ((cryptorand_init Platform.win32 env (some s)).1 = CRYPTORAND_SUCCESS →
      (cryptorand_init Platform.win32 env (some s)).2.1 =
        some (cryptorand_init__win32_fallback env.win32 cryptorandZero []).2.1) ∧
    ((cryptorand_init Platform.win32 env (some s)).2.2).all
      (fun e => ! e.isFreeLibrary) = true := by
  have heq : ({ cryptorandZero with win32 := win32Zero } : cryptorand) = cryptorandZero := rfl
  obtain ⟨ha1, ha2⟩ := init_win32_absorbs env.win32 cryptorandZero h
  rw [heq] at ha1 ha2
  refine ⟨?_, ?_, ?_, ?_⟩
  · rw [init_win32_proj1, ha1]
  · intro hne
    rw [init_win32_proj2]
    rw [init_win32_proj1] at hne
    simp [fun hc => hne hc]
  · intro hsucc
    rw [init_win32_proj2]
    rw [init_win32_proj1] at hsucc
    simp [hsucc, ha2]
  · rw [init_win32_proj3]
    exact init_win32_no_free env.win32 cryptorandZero

/-- C6 witness: the absorption conclusion at the concrete symbol-missing
environment. -/
theorem C6_witness :
    primaryAttemptFails envBcryptSymbolsMissing.win32 = true ∧
    (cryptorand_init Platform.win32 envBcryptSymbolsMissing (some cryptorandZero)).1 =
      (cryptorand_init__win32_fallback envBcryptSymbolsMissing.win32 cryptorandZero []).1 :=
  ⟨by decide,
   (C6_primary_failure_absorbed envBcryptSymbolsMissing cryptorandZero (by decide)).1⟩

/-- C7: release has no precondition on the lifecycle states of a source —
on any state reachable through the API (freshly zeroed, left by a failed
init, or successfully initialized on either backend) it does not fault and
resets every field to the zero state; and releasing again after that is
again fault-free, makes no external call, and leaves the same zeroed state,
so release is idempotent. -/
theorem C7_release_idempotent (plat : Platform) (s : cryptorand)
    (h : reachableState plat s) :
    (∃ tr, cryptorand_uninit plat (some s) = some (some cryptorandZero, tr)) ∧
    cryptorand_uninit plat (some cryptorandZero) = some (some cryptorandZero, []) :=
  ⟨uninit_resets plat s h, uninit_zero_noop plat⟩

/-- C7 witness: double release from the BCrypt-initialized state. -/
theorem C7_witness :
    reachableState Platform.win32 rngBcrypt ∧
    cryptorand_uninit Platform.win32 (some cryptorandZero) =
      some (some cryptorandZero, []) :=
  ⟨by decide, (C7_release_idempotent Platform.win32 rngBcrypt (by decide)).2⟩
/-- C8 counterexample: a generate call on the win32 build with a
never-initialized source returns success, yet no backend call is recorded
and the buffer still holds its prior content rather than the bytes the OS
backend would have delivered — success does not imply that N bytes of
OS-sourced randomness were written. -/
theorem C8_counterexample :
    cryptorand_generate Platform.win32 envAllOk (some cryptorandZero) (some [9, 9]) 2 =
      some (CRYPTORAND_SUCCESS, some [9, 9], []) ∧
    writeBytes [9, 9] 2 (osBytes Platform.win32 envAllOk cryptorandZero 2) = [8, 8] ∧
    ([9, 9] : Buffer) ≠ [8, 8] := by
  refine ⟨by decide, by decide, by decide⟩

/-- C8 (amended): provided the source has a live backend handle for the
selected platform (and `fread` never returns more than requested), a
successful `cryptorand_generate` call writes exactly the first `byteCount`
bytes of the buffer with the bytes delivered by the OS backend, preserves
the buffer length, and leaves every byte at offsets `>= byteCount`
untouched.  (Without the live-handle premise this fails: a success on a
never-initialized win32 source writes nothing, see the counterexample.) -/
theorem C8_success_exact_write (plat : Platform) (env : Env) (rng : cryptorand)
    (buf : Buffer) (n : Nat) (buf' : Buffer) (tr : List Event)
    (hready : backendReady plat rng)
    (hwf : (env.urandom.freadImpl n).1 ≤ n)
    (h : cryptorand_generate plat env (some rng) (some buf) n =
          some (CRYPTORAND_SUCCESS, some buf', tr)) :
    buf' = writeBytes buf n (osBytes plat env rng n) ∧
    buf'.length = buf.length ∧ untouchedFrom buf buf' n := by
  suffices hb : buf' = writeBytes buf n (osBytes plat env rng n) by
    refine ⟨hb, ?_, ?_⟩
    · rw [hb]
      exact writeBytes_length buf _ _
    · rw [hb]
      exact writeBytes_untouchedFrom buf _ _
  cases plat with
  | win32 =>
      unfold cryptorand_generate at h
      simp only [] at h
      cases hg : cryptorand_generate__win32 env.win32 rng buf n with
      | none => rw [hg] at h; simp at h
      | some out3 =>
          obtain ⟨res3, b3, tr3⟩ := out3
          rw [hg] at h
          simp only [] at h
          split at h
          · next hcond =>
              simp at h
              exact absurd h.1 hcond
          · next hcond =>
              simp at h
              obtain ⟨hres3, hbuf, htr⟩ := h
              rw [← hbuf]
              rw [hres3] at hg
              have hb3 := generate_win32_success_write env.win32 rng buf n b3 tr3 hg hready
              rw [hb3]
              cases ha : rng.win32.hAlgorithm <;> simp [osBytes, ha]
  | urandom =>
      unfold cryptorand_generate at h
      simp only [] at h
      split at h
      · next hcond =>
          simp at h
          exact absurd h.1 hcond
      · next hcond =>
          simp at h
          obtain ⟨h1, h2, h3⟩ := h
          rw [← h2]
          have hX : cryptorand_generate__urandom env.urandom rng buf n =
              (CRYPTORAND_SUCCESS,
               (cryptorand_generate__urandom env.urandom rng buf n).2.1,
               (cryptorand_generate__urandom env.urandom rng buf n).2.2) := by
            rw [← h1]
          simp only [osBytes]
          exact generate_urandom_success_write env.urandom rng buf n _ _ hX hwf
  | other =>
      unfold cryptorand_generate at h
      simp only [] at h
      simp at h

/-- C8 witness: a successful urandom generate writes exactly the two bytes
`fread` delivered and nothing else. -/
theorem C8_witness :
    backendReady Platform.urandom rngUrandom ∧
    (envAllOk.urandom.freadImpl 2).1 ≤ 2 ∧
    ([1, 2] : Buffer) = writeBytes [9, 9] 2 (osBytes Platform.urandom envAllOk rngUrandom 2) :=
  ⟨by decide, by decide,
   (C8_success_exact_write Platform.urandom envAllOk rngUrandom [9, 9] 2 [1, 2]
     [Event.freadEv 2 2] (by decide) (by decide) (by decide)).1⟩
